import Mathlib

/-!
Verification of the PrecoCerto contribution-moderation and trust-lifecycle
subsystem, shallowly embedded from src/server.js. The repository file holds
two complete server versions back to back: the v2.0 server (file lines
1-708) and the v8 server (lines 709-end). Route handlers from both versions
are modelled where the specification refers to both; definitions carry a V2
or V8 suffix accordingly.

Modelling conventions:
- MongoDB collections become Lean lists inside a `DB` record; document ids
  are `Nat`; timestamps are `Nat` milliseconds; prices are `Int`
  (JavaScript numbers, with 0 the only falsy numeric value we track).
- `findByIdAndUpdate` / `findOneAndUpdate` become `findOneAndUpdate` below:
  update the first matching list element, returning the updated document
  (the routes all pass the new-document flag).
- Upserts become `upsert`: replace the first match or append a fresh
  document built from filter plus update fields, as MongoDB does.
- Nullable or absent fields (Mixed ids, optional price) are `Option`;
  JavaScript truthiness of a field is `truthyId` / `truthyNum`.
- Password hashing, JWT, logging and notification are excluded
  collaborators per the specification and are not modelled.
-/

namespace PrecoCerto

/-- Strips every character that is not a decimal digit from a contact
identifier. Embeds `const normTel = t => String(t||'').replace(/\D/g,'')`
from the v8 helpers (server.js line 956). -/
def normTel (t : String) : String :=
  ⟨t.data.filter Char.isDigit⟩

/-- Client record: the fields of ClienteSchema that the moderation and
trust-lifecycle routes read or write (v2.0 lines 59-81, v8 lines 788-806).
Password hash, photo, ip and audit-date fields are omitted as they are
never consulted by the modelled routes. -/
structure Cliente where
  id : Nat
  nome : String
  login : String
  email : String
  telefone : String
  bairro : String
  notifWhats : Bool
  bloqueado : Bool
  banPermanente : Bool
  banTemporario : Option Nat
  motivoBloqueio : String
  dataBloqueio : Option Nat
  errosConsecutivos : Nat
  totalContribuicoes : Nat
  contribuicoesRejeitadas : Nat
  deriving Repr, DecidableEq

/-- Contribution record (ContribuicaoSchema, v2.0 lines 126-140, v8 lines
851-864). Product and market ids are Mixed in v8 and plain refs in v2.0,
both nullable, hence `Option String`; `preco` is a nullable number;
`criadoEm` stands for the creation timestamp both versions sort on. -/
structure Contribuicao where
  id : Nat
  tipo : String
  produtoId : Option String
  mercadoId : Option String
  preco : Option Int
  autor : String
  clienteId : Option Nat
  status : String
  motivoRecusa : String
  obs : String
  criadoEm : Nat
  deriving Repr, DecidableEq

/-- Price-table entry (PrecoSchema, v2.0 lines 105-113, v8 lines 831-839).
`dataAtu` stands for the update timestamp written on upsert. -/
structure PrecoEntry where
  produtoId : Option String
  mercadoId : Option String
  preco : Option Int
  fonte : String
  autor : String
  dataAtu : Nat
  deriving Repr, DecidableEq

/-- Blacklist entry (BlacklistSchema, v8 lines 912-919). -/
structure BlacklistEntry where
  telefone : String
  dataInicio : Nat
  dataVencimento : Nat
  motivo : String
  criadoPor : String
  ativo : Bool
  deriving Repr, DecidableEq

/-- The persistent state the modelled routes touch: the four MongoDB
collections Cliente, Contribuicao, Preco and Blacklist as lists. -/
structure DB where
  clientes : List Cliente
  contribuicoes : List Contribuicao
  precos : List PrecoEntry
  blacklist : List BlacklistEntry
  deriving Repr, DecidableEq

/-- JavaScript truthiness of a nullable id field: present and non-empty. -/
def truthyId : Option String → Bool
  | some s => !s.isEmpty
  | none => false

/-- JavaScript truthiness of a nullable numeric field: present and
non-zero (NaN is not modelled). -/
def truthyNum : Option Int → Bool
  | some x => x != 0
  | none => false

/-- HTTP-level outcome of a route, carrying the response message. -/
inductive Resp
  | badRequest (msg : String)
  | forbidden (msg : String)
  | notFound (msg : String)
  | conflict (msg : String)
  | ok (msg : String)
  | created (msg : String)
  deriving Repr, DecidableEq

/-- Returns true exactly when the response reports a created resource. -/
def Resp.isCreated : Resp → Bool
  | .created _ => true
  | _ => false

/-- Applies `f` to the first element satisfying `p`, leaving the rest of
the list unchanged; the list model of a single-document MongoDB update. -/
def updateFirstWhere (p : α → Bool) (f : α → α) : List α → List α
  | [] => []
  | x :: xs => if p x then f x :: xs else x :: updateFirstWhere p f xs

/-- Model of `Model.findOneAndUpdate(filter, update, {new:true})` without
upsert: returns the updated document when the filter matches, together
with the updated collection. -/
def findOneAndUpdate (p : α → Bool) (f : α → α) (l : List α) :
    Option α × List α :=
  match l.find? p with
  | none => (none, l)
  | some a => (some (f a), updateFirstWhere p f l)

/-- Model of `Model.findOneAndUpdate(filter, update, {upsert:true})`:
update the first match with `f`, or append the document `novo` synthesised
from filter and update fields when nothing matches. -/
def upsert (p : α → Bool) (f : α → α) (novo : α) (l : List α) : List α :=
  match l.find? p with
  | none => l ++ [novo]
  | some _ => updateFirstWhere p f l

/-- Insertion step of the newest-first sort used by the listing routes. -/
def insereDesc (c : Contribuicao) : List Contribuicao → List Contribuicao
  | [] => [c]
  | d :: ds =>
    if d.criadoEm ≤ c.criadoEm then c :: d :: ds else d :: insereDesc c ds

/-- Sorts contributions by creation timestamp, newest first; the model of
`.sort({ criadoEm: -1 })` respectively `.sort({ createdAt: -1 })`. -/
def ordenaDesc : List Contribuicao → List Contribuicao
  | [] => []
  | c :: cs => insereDesc c (ordenaDesc cs)

/-- GET /api/contribuicoes of the v2.0 server (lines 466-471): the pending
contributions, newest first, at most 100, with the state unchanged. -/
def getContribuicoesV2 (db : DB) : List Contribuicao × DB :=
  (((ordenaDesc (db.contribuicoes.filter
      (fun c => c.status == "pendente")))).take 100, db)

/-- GET /api/contribuicoes of the v8 server (lines 1820-1823): all
contributions regardless of status, newest first, at most 200, with the
state unchanged. -/
def getContribuicoesV8 (db : DB) : List Contribuicao × DB :=
  ((ordenaDesc db.contribuicoes).take 200, db)

/-- POST /api/contribuicoes of the v2.0 server (lines 473-485). The
authenticated principal arrives as `userTipo` and `userId`; `newId` and
`now` stand for the fresh document id and the clock. -/
def postContribuicaoV2 (db : DB) (userTipo : String) (userId : Nat)
    (produtoId mercadoId : Option String) (preco : Option Int)
    (tipo obs : String) (newId now : Nat) : Resp × DB :=
  if userTipo ≠ "cliente" then
    (.forbidden "Apenas clientes podem contribuir", db)
  else
    match db.clientes.find? (fun c => c.id == userId) with
    | none => (.notFound "Cliente não encontrado", db)
    | some cliente =>
      if cliente.bloqueado then
        (.forbidden "Conta bloqueada para contribuições", db)
      else if !(truthyId produtoId && truthyId mercadoId && truthyNum preco) then
        (.badRequest "produtoId, mercadoId e preco obrigatórios", db)
      else
        let contrib : Contribuicao :=
          { id := newId
            tipo := if tipo.isEmpty then "texto" else tipo
            produtoId := produtoId
            mercadoId := mercadoId
            preco := preco
            autor := cliente.nome
            clienteId := some cliente.id
            status := "pendente"
            motivoRecusa := ""
            obs := obs
            criadoEm := now }
        (.created "Contribuição enviada! Aguarda aprovação.",
          { db with contribuicoes := db.contribuicoes ++ [contrib] })

/-- POST /api/contribuicoes of the v8 server (lines 1825-1836). Differs
from v2.0 in check order: required fields are validated before the client
lookup, and a missing client and a blocked client share one 403. -/
def postContribuicaoV8 (db : DB) (userTipo : String) (userId : Nat)
    (produtoId mercadoId : Option String) (preco : Option Int)
    (tipo obs : String) (newId now : Nat) : Resp × DB :=
  if userTipo ≠ "cliente" then (.forbidden "Apenas clientes", db)
  else if !(truthyId produtoId && truthyId mercadoId && truthyNum preco) then
    (.badRequest "produtoId, mercadoId e preco obrigatórios", db)
  else
    match db.clientes.find? (fun c => c.id == userId) with
    | none => (.forbidden "Conta bloqueada", db)
    | some cliente =>
      if cliente.bloqueado then (.forbidden "Conta bloqueada", db)
      else
        let contrib : Contribuicao :=
          { id := newId
            tipo := if tipo.isEmpty then "texto" else tipo
            produtoId := produtoId
            mercadoId := mercadoId
            preco := preco
            autor := cliente.nome
            clienteId := some cliente.id
            status := "pendente"
            motivoRecusa := ""
            obs := obs
            criadoEm := now }
        (.created "Contribuição enviada! Aguarda aprovação.",
          { db with contribuicoes := db.contribuicoes ++ [contrib] })

/-- PATCH /api/contribuicoes/:id/aprovar of the v2.0 server (lines
487-506): find the contribution, set status aprovado and save, upsert the
price entry unconditionally, then reset the client error streak and bump
the approved total. No check that the status was still pendente. -/
def aprovarContribuicaoV2 (db : DB) (cid : Nat) (now : Nat) : Resp × DB :=
  match db.contribuicoes.find? (fun t => t.id == cid) with
  | none => (.notFound "Contribuição não encontrada", db)
  | some c0 =>
    let c := { c0 with status := "aprovado" }
    let contribs :=
      updateFirstWhere (fun t => t.id == cid) (fun _ => c) db.contribuicoes
    let precos :=
      upsert (fun e => e.produtoId == c.produtoId && e.mercadoId == c.mercadoId)
        (fun e => { e with
          preco := c.preco
          fonte := "cliente"
          autor := c.autor
          dataAtu := now })
        { produtoId := c.produtoId
          mercadoId := c.mercadoId
          preco := c.preco
          fonte := "cliente"
          autor := c.autor
          dataAtu := now }
        db.precos
    let clientes :=
      match c.clienteId with
      | some k =>
        (findOneAndUpdate (fun x => x.id == k)
          (fun x => { x with
            errosConsecutivos := 0
            totalContribuicoes := x.totalContribuicoes + 1 })
          db.clientes).2
      | none => db.clientes
    (.ok "Contribuição aprovada e preço publicado!",
      { db with contribuicoes := contribs, precos := precos, clientes := clientes })

/-- PATCH /api/contribuicoes/:id/aprovar of the v8 server (lines
1838-1852): one findByIdAndUpdate setting status aprovado with no guard on
the previous status, a price upsert only when produtoId, mercadoId and
preco are all truthy, and the client counter update. -/
def aprovarContribuicaoV8 (db : DB) (cid : Nat) (now : Nat) : Resp × DB :=
  match findOneAndUpdate (fun t => t.id == cid)
      (fun t => { t with status := "aprovado" }) db.contribuicoes with
  | (none, _) => (.notFound "Não encontrada", db)
  | (some c, contribs) =>
    let precos :=
      if truthyId c.produtoId && truthyId c.mercadoId && truthyNum c.preco then
        upsert (fun e => e.produtoId == c.produtoId && e.mercadoId == c.mercadoId)
          (fun e => { e with
            produtoId := c.produtoId
            mercadoId := c.mercadoId
            preco := c.preco
            fonte := "cliente"
            autor := c.autor
            dataAtu := now })
          { produtoId := c.produtoId
            mercadoId := c.mercadoId
            preco := c.preco
            fonte := "cliente"
            autor := c.autor
            dataAtu := now }
          db.precos
      else db.precos
    let clientes :=
      match c.clienteId with
      | some k =>
        (findOneAndUpdate (fun x => x.id == k)
          (fun x => { x with
            totalContribuicoes := x.totalContribuicoes + 1
            errosConsecutivos := 0 })
          db.clientes).2
      | none => db.clientes
    (.ok "Aprovado e preço publicado!",
      { db with contribuicoes := contribs, precos := precos, clientes := clientes })

/-- PATCH /api/contribuicoes/:id/recusar of the v2.0 server (lines
508-530): set status recusado with the defaulted reason, then read the
client, bump the error streak and rejected total, and when the
post-increment streak reaches 3 on an unblocked client flip bloqueado with
the automatic reason built from the raw motivo. -/
def recusarContribuicaoV2 (db : DB) (cid : Nat) (motivo : String)
    (now : Nat) : Resp × DB :=
  match findOneAndUpdate (fun t => t.id == cid)
      (fun t => { t with
        status := "recusado"
        motivoRecusa := if motivo.isEmpty then "Preço incorreto" else motivo })
      db.contribuicoes with
  | (none, _) => (.notFound "Contribuição não encontrada", db)
  | (some c, contribs) =>
    let clientes :=
      match c.clienteId with
      | some k =>
        match db.clientes.find? (fun x => x.id == k) with
        | none => db.clientes
        | some cl =>
          let cl1 := { cl with
            errosConsecutivos := cl.errosConsecutivos + 1
            contribuicoesRejeitadas := cl.contribuicoesRejeitadas + 1 }
          let cl2 :=
            if 3 ≤ cl1.errosConsecutivos && !cl1.bloqueado then
              { cl1 with
                bloqueado := true
                motivoBloqueio := "Bloqueio automático após 3 erros: " ++ motivo
                dataBloqueio := some now }
            else cl1
          updateFirstWhere (fun x => x.id == k) (fun _ => cl2) db.clientes
      | none => db.clientes
    (.ok "Contribuição recusada",
      { db with contribuicoes := contribs, clientes := clientes })

/-- PATCH /api/contribuicoes/:id/rejeitar of the v8 server (lines
1854-1861): set status rejeitado with no guard on the previous status and
increment both client counters. This version never sets bloqueado. -/
def rejeitarContribuicaoV8 (db : DB) (cid : Nat) (motivo : String) :
    Resp × DB :=
  match findOneAndUpdate (fun t => t.id == cid)
      (fun t => { t with status := "rejeitado", motivoRecusa := motivo })
      db.contribuicoes with
  | (none, _) => (.notFound "Não encontrada", db)
  | (some c, contribs) =>
    let clientes :=
      match c.clienteId with
      | some k =>
        (findOneAndUpdate (fun x => x.id == k)
          (fun x => { x with
            contribuicoesRejeitadas := x.contribuicoesRejeitadas + 1
            errosConsecutivos := x.errosConsecutivos + 1 })
          db.clientes).2
      | none => db.clientes
    (.ok "Rejeitado", { db with contribuicoes := contribs, clientes := clientes })

/-- Helper telNaBlacklist of the v8 server (lines 964-966): the first
active blacklist entry whose stored phone equals the normalised argument
and whose expiry lies strictly in the future. -/
def telNaBlacklist (db : DB) (telefone : String) (now : Nat) :
    Option BlacklistEntry :=
  db.blacklist.find?
    (fun e => e.telefone == normTel telefone && e.ativo
      && decide (now < e.dataVencimento))

/-- POST /api/auth/cadastro of the v8 server (lines 1575-1600): field and
password checks, phone normalisation and length check, duplicate login and
phone checks, the synchronous blacklist consultation, then creation. -/
def cadastroClienteV8 (db : DB)
    (nome login senha email telefone bairro : String) (notifWhats : Bool)
    (newId now : Nat) : Resp × DB :=
  if nome.isEmpty || login.isEmpty || senha.isEmpty || telefone.isEmpty then
    (.badRequest "Nome, login, senha e telefone são obrigatórios", db)
  else if senha.length < 6 then
    (.badRequest "Senha deve ter pelo menos 6 caracteres", db)
  else
    let telNorm := normTel telefone
    if telNorm.length < 10 then
      (.badRequest "Telefone inválido — informe com DDD", db)
    else if (db.clientes.find? (fun c => c.login == login.toLower)).isSome then
      (.conflict "Login já em uso", db)
    else if (db.clientes.find? (fun c => c.telefone == telNorm)).isSome then
      (.conflict "Número de WhatsApp já cadastrado", db)
    else
      match telNaBlacklist db telNorm now with
      | some _ => (.forbidden "Número impedido — aguarde", db)
      | none =>
        let c : Cliente :=
          { id := newId
            nome := nome
            login := login.toLower
            email := email
            telefone := telNorm
            bairro := bairro
            notifWhats := notifWhats
            bloqueado := false
            banPermanente := false
            banTemporario := none
            motivoBloqueio := ""
            dataBloqueio := none
            errosConsecutivos := 0
            totalContribuicoes := 0
            contribuicoesRejeitadas := 0 }
        (.created "Conta criada com sucesso!",
          { db with clientes := db.clientes ++ [c] })

/-- DELETE /api/admin/clientes/:id of the v8 server (lines 1922-1939):
hard-delete the client and upsert a blacklist entry keyed by the
normalised phone, active, expiring at `vence`. The route computes vence as
two calendar months after now; calendar arithmetic is abstracted into the
`vence` argument. `quem` is the acting admin login recorded as criadoPor. -/
def excluirClienteV8 (db : DB) (cid : Nat) (motivo quem : String)
    (now vence : Nat) : Resp × DB :=
  match db.clientes.find? (fun c => c.id == cid) with
  | none => (.notFound "Cliente não encontrado", db)
  | some c =>
    let tel := normTel c.telefone
    let novo : BlacklistEntry :=
      { telefone := tel
        dataInicio := now
        dataVencimento := vence
        motivo := if motivo.isEmpty then "Conta excluída por administrador" else motivo
        criadoPor := quem
        ativo := true }
    let clientes := db.clientes.eraseP (fun x => x.id == cid)
    let blacklist :=
      upsert (fun e => e.telefone == tel) (fun _ => novo) novo db.blacklist
    (.ok "Conta excluída. Número bloqueado por 2 meses.",
      { db with clientes := clientes, blacklist := blacklist })

/-- Expiry sweeper of the v8 server (lines 764-769): a 24h timer running
`Blacklist.updateMany({dataVencimento:{$lte:now}, ativo:true}, {ativo:false})`. -/
def limparBlacklistVencida (db : DB) (now : Nat) : DB :=
  { db with
    blacklist := db.blacklist.map
      (fun e =>
        if e.dataVencimento ≤ now && e.ativo then { e with ativo := false }
        else e) }

/-! Helper lemmas about the list models of the persistence operations. -/

theorem find?_updateFirstWhere (p : α → Bool) (f : α → α) (l : List α)
    (hf : ∀ a, p a = true → p (f a) = true) :
    (updateFirstWhere p f l).find? p = (l.find? p).map f := by
  induction l with
  | nil => rfl
  | cons x xs ih =>
    by_cases hx : p x = true
    · simp [updateFirstWhere, List.find?, hx, hf x hx]
    · have hx' : p x = false := by simpa using hx
      simp [updateFirstWhere, List.find?, hx', ih]

theorem upsert_cons_pos (p : α → Bool) (f : α → α) (novo x : α)
    (xs : List α) (hx : p x = true) :
    upsert p f novo (x :: xs) = f x :: xs := by
  simp [upsert, List.find?, updateFirstWhere, hx]

theorem upsert_cons_neg (p : α → Bool) (f : α → α) (novo x : α)
    (xs : List α) (hx : p x = false) :
    upsert p f novo (x :: xs) = x :: upsert p f novo xs := by
  have hfind : (x :: xs).find? p = xs.find? p := by simp [List.find?, hx]
  simp only [upsert, hfind]
  cases h : xs.find? p with
  | none => simp [h]
  | some a => simp [h, updateFirstWhere, hx]

theorem find?_upsert (p : α → Bool) (f : α → α) (novo : α) (l : List α)
    (hf : ∀ a, p a = true → p (f a) = true) (hn : p novo = true) :
    (upsert p f novo l).find? p
      = some (match l.find? p with | some a => f a | none => novo) := by
  induction l with
  | nil => simp [upsert, List.find?, hn]
  | cons x xs ih =>
    by_cases hx : p x = true
    · rw [upsert_cons_pos p f novo x xs hx]
      simp [List.find?, hx, hf x hx]
    · have hx' : p x = false := by simpa using hx
      rw [upsert_cons_neg p f novo x xs hx']
      simp only [List.find?, hx']
      simpa using ih

theorem mem_upsert_self (p : α → Bool) (novo : α) (l : List α) :
    novo ∈ upsert p (fun _ => novo) novo l := by
  induction l with
  | nil => simp [upsert, List.find?]
  | cons x xs ih =>
    by_cases hx : p x = true
    · rw [upsert_cons_pos _ _ _ _ _ hx]; exact List.mem_cons_self _ _
    · have hx' : p x = false := by simpa using hx
      rw [upsert_cons_neg _ _ _ _ _ hx']
      exact List.mem_cons_of_mem _ ih

theorem mem_upsert_replace (p : α → Bool) (novo : α) (l : List α)
    (hcount : l.countP p ≤ 1) :
    ∀ e ∈ upsert p (fun _ => novo) novo l, e = novo ∨ (e ∈ l ∧ p e = false) := by
  induction l with
  | nil =>
    intro e he
    simp [upsert, List.find?] at he
    exact Or.inl he
  | cons x xs ih =>
    by_cases hx : p x = true
    · rw [upsert_cons_pos _ _ _ _ _ hx]
      intro e he
      rcases List.mem_cons.mp he with h | h
      · exact Or.inl h
      · have h0 : xs.countP p = 0 := by
          rw [List.countP_cons_of_pos _ _ hx] at hcount
          omega
        have hpe : ¬p e = true := List.countP_eq_zero.mp h0 e h
        exact Or.inr ⟨List.mem_cons_of_mem _ h, by simpa using hpe⟩
    · have hx' : p x = false := by simpa using hx
      rw [upsert_cons_neg _ _ _ _ _ hx']
      intro e he
      rcases List.mem_cons.mp he with h | h
      · subst h; exact Or.inr ⟨List.mem_cons_self _ _, hx'⟩
      · have hc : xs.countP p ≤ 1 := by
          rw [List.countP_cons_of_neg _ _ (by simp [hx'])] at hcount
          exact hcount
        rcases ih hc e h with h1 | ⟨h2, h3⟩
        · exact Or.inl h1
        · exact Or.inr ⟨List.mem_cons_of_mem _ h2, h3⟩

theorem mem_insereDesc (c x : Contribuicao) (l : List Contribuicao) :
    x ∈ insereDesc c l ↔ x = c ∨ x ∈ l := by
  induction l with
  | nil => simp [insereDesc]
  | cons d ds ih =>
    by_cases h : d.criadoEm ≤ c.criadoEm
    · simp only [insereDesc, if_pos h, List.mem_cons]
    · simp only [insereDesc, if_neg h, List.mem_cons, ih]
      tauto

theorem pairwise_insereDesc (c : Contribuicao) (l : List Contribuicao)
    (h : l.Pairwise (fun a b => b.criadoEm ≤ a.criadoEm)) :
    (insereDesc c l).Pairwise (fun a b => b.criadoEm ≤ a.criadoEm) := by
  induction l with
  | nil => simp [insereDesc]
  | cons d ds ih =>
    rcases List.pairwise_cons.mp h with ⟨hd, hds⟩
    by_cases hc : d.criadoEm ≤ c.criadoEm
    · rw [insereDesc, if_pos hc]
      refine List.pairwise_cons.mpr ⟨?_, h⟩
      intro y hy
      rcases List.mem_cons.mp hy with rfl | hy
      · exact hc
      · exact le_trans (hd y hy) hc
    · rw [insereDesc, if_neg hc]
      refine List.pairwise_cons.mpr ⟨?_, ih hds⟩
      intro y hy
      rcases (mem_insereDesc c y ds).mp hy with rfl | hy
      · omega
      · exact hd y hy

theorem pairwise_ordenaDesc (l : List Contribuicao) :
    (ordenaDesc l).Pairwise (fun a b => b.criadoEm ≤ a.criadoEm) := by
  induction l with
  | nil => simp [ordenaDesc]
  | cons c cs ih => exact pairwise_insereDesc c _ ih

theorem mem_ordenaDesc (x : Contribuicao) (l : List Contribuicao) :
    x ∈ ordenaDesc l ↔ x ∈ l := by
  induction l with
  | nil => simp [ordenaDesc]
  | cons c cs ih => simp [ordenaDesc, mem_insereDesc, ih]

theorem normTel_idem (t : String) : normTel (normTel t) = normTel t := by
  simp [normTel, List.filter_filter]

theorem findOneAndUpdate_found (p : α → Bool) (f : α → α) (l : List α) (a : α)
    (h : l.find? p = some a) :
    findOneAndUpdate p f l = (some (f a), updateFirstWhere p f l) := by
  simp [findOneAndUpdate, h]

theorem find?_snd_findOneAndUpdate (p : α → Bool) (f : α → α) (l : List α)
    (a : α) (h : l.find? p = some a) (hf : ∀ x, p x = true → p (f x) = true) :
    (findOneAndUpdate p f l).2.find? p = some (f a) := by
  rw [findOneAndUpdate_found p f l a h]
  simp [find?_updateFirstWhere p f l hf, h]

theorem find?_updateConstCliente (l : List Cliente) (k : Nat)
    (cl novo : Cliente) (hcl : l.find? (fun x => x.id == k) = some cl)
    (hnovo : novo.id = cl.id) :
    (updateFirstWhere (fun x => x.id == k) (fun _ => novo) l).find?
        (fun x => x.id == k) = some novo := by
  have hid : (cl.id == k) = true := by simpa using List.find?_some hcl
  rw [find?_updateFirstWhere _ _ _ (fun a _ => by simpa [hnovo] using hid), hcl]
  rfl

/-- The effect of the v2.0 approval route on the deciding client. -/
theorem aprovarV2_cliente (db : DB) (cid now : Nat) (c : Contribuicao)
    (k : Nat) (cl : Cliente)
    (hc : db.contribuicoes.find? (fun t => t.id == cid) = some c)
    (hk : c.clienteId = some k)
    (hcl : db.clientes.find? (fun x => x.id == k) = some cl) :
    (aprovarContribuicaoV2 db cid now).2.clientes.find? (fun x => x.id == k)
      = some { cl with
          errosConsecutivos := 0
          totalContribuicoes := cl.totalContribuicoes + 1 } := by
  simp only [aprovarContribuicaoV2, hc, hk]
  exact find?_snd_findOneAndUpdate _ _ _ _ hcl (fun a ha => by simpa using ha)

/-- The effect of the v8 approval route on the deciding client. -/
theorem aprovarV8_cliente (db : DB) (cid now : Nat) (c : Contribuicao)
    (k : Nat) (cl : Cliente)
    (hc : db.contribuicoes.find? (fun t => t.id == cid) = some c)
    (hk : c.clienteId = some k)
    (hcl : db.clientes.find? (fun x => x.id == k) = some cl) :
    (aprovarContribuicaoV8 db cid now).2.clientes.find? (fun x => x.id == k)
      = some { cl with
          totalContribuicoes := cl.totalContribuicoes + 1
          errosConsecutivos := 0 } := by
  simp only [aprovarContribuicaoV8, findOneAndUpdate_found _ _ _ _ hc, hk]
  exact find?_snd_findOneAndUpdate _ _ _ _ hcl (fun a ha => by simpa using ha)

/-- The effect of the v8 rejection route on the deciding client. -/
theorem rejeitarV8_cliente (db : DB) (cid : Nat) (motivo : String)
    (c : Contribuicao) (k : Nat) (cl : Cliente)
    (hc : db.contribuicoes.find? (fun t => t.id == cid) = some c)
    (hk : c.clienteId = some k)
    (hcl : db.clientes.find? (fun x => x.id == k) = some cl) :
    (rejeitarContribuicaoV8 db cid motivo).2.clientes.find? (fun x => x.id == k)
      = some { cl with
          contribuicoesRejeitadas := cl.contribuicoesRejeitadas + 1
          errosConsecutivos := cl.errosConsecutivos + 1 } := by
  simp only [rejeitarContribuicaoV8, findOneAndUpdate_found _ _ _ _ hc, hk]
  exact find?_snd_findOneAndUpdate _ _ _ _ hcl (fun a ha => by simpa using ha)

/-- The effect of the v2.0 rejection route on the deciding client: both
counters are bumped and the automatic block is applied exactly when the
post-increment streak reaches 3 on an unblocked client. -/
theorem recusarV2_cliente (db : DB) (cid : Nat) (motivo : String) (now : Nat)
    (c : Contribuicao) (k : Nat) (cl : Cliente)
    (hc : db.contribuicoes.find? (fun t => t.id == cid) = some c)
    (hk : c.clienteId = some k)
    (hcl : db.clientes.find? (fun x => x.id == k) = some cl) :
    (recusarContribuicaoV2 db cid motivo now).2.clientes.find?
        (fun x => x.id == k)
      = some (
          if 3 ≤ cl.errosConsecutivos + 1 && !cl.bloqueado then
            { cl with
              errosConsecutivos := cl.errosConsecutivos + 1
              contribuicoesRejeitadas := cl.contribuicoesRejeitadas + 1
              bloqueado := true
              motivoBloqueio := "Bloqueio automático após 3 erros: " ++ motivo
              dataBloqueio := some now }
          else
            { cl with
              errosConsecutivos := cl.errosConsecutivos + 1
              contribuicoesRejeitadas := cl.contribuicoesRejeitadas + 1 }) := by
  simp only [recusarContribuicaoV2, findOneAndUpdate_found _ _ _ _ hc, hk, hcl]
  exact find?_updateConstCliente _ _ _ _ hcl (by split <;> rfl)

/-! Concrete fixtures reused by the counterexample databases. -/

/-- Client fixture: unblocked, with an error streak of 2. -/
def clienteAna : Cliente :=
  { id := 7
    nome := "Ana"
    login := "ana"
    email := ""
    telefone := "75988887777"
    bairro := "Centro"
    notifWhats := false
    bloqueado := false
    banPermanente := false
    banTemporario := none
    motivoBloqueio := ""
    dataBloqueio := none
    errosConsecutivos := 2
    totalContribuicoes := 5
    contribuicoesRejeitadas := 2 }

/-- Contribution fixture in the terminal recusado state. -/
def contribRecusada : Contribuicao :=
  { id := 1
    tipo := "texto"
    produtoId := some "p1"
    mercadoId := some "m1"
    preco := some 5
    autor := "Ana"
    clienteId := some 7
    status := "recusado"
    motivoRecusa := "Preço incorreto"
    obs := ""
    criadoEm := 10 }

/-- Contribution fixture still pending. -/
def contribPendente : Contribuicao :=
  { id := 1
    tipo := "texto"
    produtoId := some "p1"
    mercadoId := some "m1"
    preco := some 5
    autor := "Ana"
    clienteId := some 7
    status := "pendente"
    motivoRecusa := ""
    obs := ""
    criadoEm := 10 }

/-- Database holding an already rejected contribution of clienteAna. -/
def dbRecusada : DB :=
  { clientes := [clienteAna]
    contribuicoes := [contribRecusada]
    precos := []
    blacklist := [] }

/-- Database holding a pending contribution of clienteAna. -/
def dbPendente : DB :=
  { clientes := [clienteAna]
    contribuicoes := [contribPendente]
    precos := []
    blacklist := [] }

/-- C1: the specification demands that approving or rejecting a
contribution whose status already left pendente fails with AlreadyDecided
and changes nothing. The code has no such guard: approving the already
rejected contribution 1 succeeds with 200, rewrites its status to
aprovado, republishes the price entry and resets the client error streak,
so the decided state is not immutable. -/
theorem aprovarAposRecusadoSucede :
    (aprovarContribuicaoV2 dbRecusada 1 99).1
        = Resp.ok "Contribuição aprovada e preço publicado!"
  ∧ ((aprovarContribuicaoV2 dbRecusada 1 99).2.contribuicoes.map
        (fun t => t.status)) = ["aprovado"]
  ∧ (aprovarContribuicaoV2 dbRecusada 1 99).2.precos
        = [{ produtoId := some "p1"
             mercadoId := some "m1"
             preco := some 5
             fonte := "cliente"
             autor := "Ana"
             dataAtu := 99 }]
  ∧ ((aprovarContribuicaoV2 dbRecusada 1 99).2.clientes.map
        (fun z => z.errosConsecutivos)) = [0] := by
  decide

/-- C2: the specification demands an atomic conditional write guarded by
current status = pendente, so that at most one decision succeeds and the
loser sees AlreadyDecided. Both decision routes update with the filter
id-only, so approving and then rejecting the same contribution both
return success and the second decision overwrites the first. -/
theorem duplaDecisaoAmbasSucedem :
    (aprovarContribuicaoV8 dbPendente 1 50).1 = Resp.ok "Aprovado e preço publicado!"
  ∧ (rejeitarContribuicaoV8 (aprovarContribuicaoV8 dbPendente 1 50).2 1
        "preço errado").1 = Resp.ok "Rejeitado"
  ∧ ((rejeitarContribuicaoV8 (aprovarContribuicaoV8 dbPendente 1 50).2 1
        "preço errado").2.contribuicoes.map (fun t => t.status)) = ["rejeitado"] := by
  decide

/-- C3 counterexample: in the v8 rejeitar route a third consecutive
rejection leaves bloqueado false. Cliente 7 starts with streak 2 and is
not blocked; after rejecting their pending contribution the streak is 3
yet the client is still unblocked, refuting the claim for the v8 route. -/
theorem rejeitarV8NaoBloqueiaNoTerceiroErro :
    ((rejeitarContribuicaoV8 dbPendente 1 "Preço falso").2.clientes.map
      (fun z => (z.errosConsecutivos, z.bloqueado))) = [(3, false)] := by
  decide

/-- C3 (amended): in the v2.0 recusar route, a successful rejection whose
post-increment error streak reaches at least 3 on an unblocked client
flips bloqueado to true with the automatic reason derived from the
rejection motivo, in the same operation and without administrator action;
and a client that is already blocked only has its counters bumped, so the
flip happens at most once. The v8 rejeitar route never performs the flip. -/
theorem recusarV2BloqueioAutomatico (db : DB) (cid : Nat) (motivo : String)
    (now : Nat) (c : Contribuicao) (k : Nat) (cl : Cliente)
    (hc : db.contribuicoes.find? (fun t => t.id == cid) = some c)
    (hk : c.clienteId = some k)
    (hcl : db.clientes.find? (fun x => x.id == k) = some cl) :
    (cl.bloqueado = false → 3 ≤ cl.errosConsecutivos + 1 →
      ((recusarContribuicaoV2 db cid motivo now).2.clientes.find?
          (fun x => x.id == k))
        = some { cl with
            errosConsecutivos := cl.errosConsecutivos + 1
            contribuicoesRejeitadas := cl.contribuicoesRejeitadas + 1
            bloqueado := true
            motivoBloqueio := "Bloqueio automático após 3 erros: " ++ motivo
            dataBloqueio := some now })
  ∧ (cl.bloqueado = true →
      ((recusarContribuicaoV2 db cid motivo now).2.clientes.find?
          (fun x => x.id == k))
        = some { cl with
            errosConsecutivos := cl.errosConsecutivos + 1
            contribuicoesRejeitadas := cl.contribuicoesRejeitadas + 1 }) := by
  rw [recusarV2_cliente db cid motivo now c k cl hc hk hcl]
  constructor
  · intro hb h3
    simp [hb, h3]
  · intro hb
    simp [hb]

/-- C3 witness: rejecting the pending contribution of clienteAna, whose
streak is 2 and who is not blocked, leaves the client blocked with the
automatic reason. -/
theorem recusarV2BloqueioAutomaticoWitness :
    ((recusarContribuicaoV2 dbPendente 1 "Preço falso" 77).2.clientes.find?
        (fun x => x.id == 7))
      = some { clienteAna with
          errosConsecutivos := clienteAna.errosConsecutivos + 1
          contribuicoesRejeitadas := clienteAna.contribuicoesRejeitadas + 1
          bloqueado := true
          motivoBloqueio := "Bloqueio automático após 3 erros: Preço falso"
          dataBloqueio := some 77 } :=
  (recusarV2BloqueioAutomatico dbPendente 1 "Preço falso" 77 contribPendente 7
      clienteAna (by decide) (by decide) (by decide)).1 (by decide) (by decide)

/-- C5: in both server versions a successful approval of a contribution
belonging to client k resets errosConsecutivos to exactly 0 and bumps
totalContribuicoes by exactly 1, and a successful rejection bumps both
errosConsecutivos and contribuicoesRejeitadas by exactly 1. -/
theorem decisaoAtualizaContadores (db : DB) (cid now : Nat) (motivo : String)
    (c : Contribuicao) (k : Nat) (cl : Cliente)
    (hc : db.contribuicoes.find? (fun t => t.id == cid) = some c)
    (hk : c.clienteId = some k)
    (hcl : db.clientes.find? (fun x => x.id == k) = some cl) :
    (((aprovarContribuicaoV2 db cid now).2.clientes.find? (fun x => x.id == k)).map
        (fun z => (z.errosConsecutivos, z.totalContribuicoes))
      = some (0, cl.totalContribuicoes + 1))
  ∧ (((aprovarContribuicaoV8 db cid now).2.clientes.find? (fun x => x.id == k)).map
        (fun z => (z.errosConsecutivos, z.totalContribuicoes))
      = some (0, cl.totalContribuicoes + 1))
  ∧ (((recusarContribuicaoV2 db cid motivo now).2.clientes.find?
        (fun x => x.id == k)).map
        (fun z => (z.errosConsecutivos, z.contribuicoesRejeitadas))
      = some (cl.errosConsecutivos + 1, cl.contribuicoesRejeitadas + 1))
  ∧ (((rejeitarContribuicaoV8 db cid motivo).2.clientes.find?
        (fun x => x.id == k)).map
        (fun z => (z.errosConsecutivos, z.contribuicoesRejeitadas))
      = some (cl.errosConsecutivos + 1, cl.contribuicoesRejeitadas + 1)) := by
  refine ⟨?_, ?_, ?_, ?_⟩
  · rw [aprovarV2_cliente db cid now c k cl hc hk hcl]; rfl
  · rw [aprovarV8_cliente db cid now c k cl hc hk hcl]; rfl
  · rw [recusarV2_cliente db cid motivo now c k cl hc hk hcl]
    split <;> rfl
  · rw [rejeitarV8_cliente db cid motivo c k cl hc hk hcl]; rfl

/-- C5 witness: approving the pending contribution of clienteAna resets
the streak to 0 and bumps the approved total from 5 to 6. -/
theorem decisaoAtualizaContadoresWitness :
    ((aprovarContribuicaoV2 dbPendente 1 33).2.clientes.find?
        (fun x => x.id == 7)).map
      (fun z => (z.errosConsecutivos, z.totalContribuicoes))
      = some (0, clienteAna.totalContribuicoes + 1) :=
  (decisaoAtualizaContadores dbPendente 1 33 "x" contribPendente 7 clienteAna
      (by decide) (by decide) (by decide)).1

theorem find?_upsert_novo (p : α → Bool) (f : α → α) (novo : α) (l : List α)
    (hfe : ∀ a, p a = true → f a = novo) (hn : p novo = true) :
    (upsert p f novo l).find? p = some novo := by
  rw [find?_upsert p f novo l (fun a ha => by rw [hfe a ha]; exact hn) hn]
  cases h : l.find? p with
  | none => rfl
  | some a => simp [hfe a (List.find?_some h)]

/-- C4: approving a contribution that carries product P, market M and a
non-zero price X makes the price-table entry found under the key (P, M)
hold price X, fonte cliente and the contribution author, in both server
versions, overwriting whatever entry was stored there before, regardless
of its prior price, age or source. -/
theorem aprovacaoPublicaPreco (db : DB) (cid now : Nat) (c : Contribuicao)
    (p m : String) (x : Int)
    (hc : db.contribuicoes.find? (fun t => t.id == cid) = some c)
    (hp : c.produtoId = some p) (hm : c.mercadoId = some m)
    (hx : c.preco = some x)
    (hpne : p ≠ "") (hmne : m ≠ "") (hx0 : x ≠ 0) :
    ((aprovarContribuicaoV2 db cid now).1
        = Resp.ok "Contribuição aprovada e preço publicado!")
  ∧ ((aprovarContribuicaoV2 db cid now).2.precos.find?
        (fun e => e.produtoId == some p && e.mercadoId == some m)
      = some { produtoId := some p
               mercadoId := some m
               preco := some x
               fonte := "cliente"
               autor := c.autor
               dataAtu := now })
  ∧ ((aprovarContribuicaoV8 db cid now).1 = Resp.ok "Aprovado e preço publicado!")
  ∧ ((aprovarContribuicaoV8 db cid now).2.precos.find?
        (fun e => e.produtoId == some p && e.mercadoId == some m)
      = some { produtoId := some p
               mercadoId := some m
               preco := some x
               fonte := "cliente"
               autor := c.autor
               dataAtu := now }) := by
  have hpEmp : p.isEmpty = false := by
    cases h : p.isEmpty with
    | false => rfl
    | true => exact absurd ((String.isEmpty_iff p).mp h) hpne
  have hmEmp : m.isEmpty = false := by
    cases h : m.isEmpty with
    | false => rfl
    | true => exact absurd ((String.isEmpty_iff m).mp h) hmne
  have htp : truthyId (some p) = true := by simp [truthyId, hpEmp]
  have htm : truthyId (some m) = true := by simp [truthyId, hmEmp]
  have htx : truthyNum (some x) = true := by
    simp [truthyNum, hx0]
  refine ⟨?_, ?_, ?_, ?_⟩
  · simp [aprovarContribuicaoV2, hc]
  · simp only [aprovarContribuicaoV2, hc, hp, hm, hx]
    refine find?_upsert_novo _ _ _ _ ?_ (by simp)
    intro e he
    have h12 : e.produtoId = some p ∧ e.mercadoId = some m := by
      simpa [Bool.and_eq_true] using he
    cases e
    simp_all
  · simp [aprovarContribuicaoV8, findOneAndUpdate_found _ _ _ _ hc]
  · simp only [aprovarContribuicaoV8, findOneAndUpdate_found _ _ _ _ hc,
      hp, hm, hx, htp, htm, htx, Bool.and_self, if_true]
    refine find?_upsert_novo _ _ _ _ ?_ (by simp)
    intro e _
    cases e
    rfl

/-- C4 witness: approving the pending contribution for product p1 at
market m1 with price 5 leaves the price entry for (p1, m1) holding 5,
fonte cliente and the author of the contribution. -/
theorem aprovacaoPublicaPrecoWitness :
    (aprovarContribuicaoV2 dbPendente 1 40).2.precos.find?
        (fun e => e.produtoId == some "p1" && e.mercadoId == some "m1")
      = some { produtoId := some "p1"
               mercadoId := some "m1"
               preco := some 5
               fonte := "cliente"
               autor := contribPendente.autor
               dataAtu := 40 } :=
  (aprovacaoPublicaPreco dbPendente 1 40 contribPendente "p1" "m1" 5
      (by decide) (by decide) (by decide) (by decide) (by decide) (by decide)
      (by decide)).2.1

/-- C10 (amended): in the v8 approval route a contribution whose product
id, market id or price is missing or zero (JavaScript-falsy) is still
approved: the route returns success, the status becomes aprovado, the
attached client (when present) has its error streak reset to 0 and its
approved total bumped, and the price table is left completely untouched.
A negative price is truthy, so it does not fall under this guard. -/
theorem aprovarSemCamposNaoPublicaPreco (db : DB) (cid now : Nat)
    (c : Contribuicao)
    (hc : db.contribuicoes.find? (fun t => t.id == cid) = some c)
    (hmiss : (truthyId c.produtoId && truthyId c.mercadoId
      && truthyNum c.preco) = false) :
    ((aprovarContribuicaoV8 db cid now).1 = Resp.ok "Aprovado e preço publicado!")
  ∧ ((aprovarContribuicaoV8 db cid now).2.precos = db.precos)
  ∧ (((aprovarContribuicaoV8 db cid now).2.contribuicoes.find?
        (fun t => t.id == cid)).map (fun t => t.status) = some "aprovado")
  ∧ (∀ k cl, c.clienteId = some k →
      db.clientes.find? (fun x => x.id == k) = some cl →
      ((aprovarContribuicaoV8 db cid now).2.clientes.find?
          (fun x => x.id == k)).map
        (fun z => (z.errosConsecutivos, z.totalContribuicoes))
        = some (0, cl.totalContribuicoes + 1)) := by
  refine ⟨?_, ?_, ?_, ?_⟩
  · simp [aprovarContribuicaoV8, findOneAndUpdate_found _ _ _ _ hc]
  · simp only [aprovarContribuicaoV8, findOneAndUpdate_found _ _ _ _ hc]
    simp [hmiss]
  · simp only [aprovarContribuicaoV8, findOneAndUpdate_found _ _ _ _ hc]
    rw [find?_updateFirstWhere _ _ _ (fun a ha => by simpa using ha), hc]
    rfl
  · intro k cl hk hcl
    rw [aprovarV8_cliente db cid now c k cl hc hk hcl]
    rfl

/-- Contribution fixture with product and market references and price -1. -/
def contribPrecoNegativo : Contribuicao :=
  { id := 4
    tipo := "texto"
    produtoId := some "p1"
    mercadoId := some "m1"
    preco := some (-1)
    autor := "Ana"
    clienteId := some 7
    status := "pendente"
    motivoRecusa := ""
    obs := ""
    criadoEm := 12 }

/-- Database holding the negative-price contribution of clienteAna. -/
def dbPrecoNegativo : DB :=
  { clientes := [clienteAna]
    contribuicoes := [contribPrecoNegativo]
    precos := []
    blacklist := [] }

/-- C10 counterexample: contribution 4 carries product p1 and market m1
but its price -1 is not positive, so the claim says approving it writes
no price-table entry at all. A negative price is JavaScript-truthy, so
the v8 guard passes and the approval does publish the entry for (p1, m1)
with price -1. -/
theorem aprovarPrecoNegativoPublicaPreco :
    ((aprovarContribuicaoV8 dbPrecoNegativo 4 70).1
        = Resp.ok "Aprovado e preço publicado!")
  ∧ (aprovarContribuicaoV8 dbPrecoNegativo 4 70).2.precos
      = [{ produtoId := some "p1"
           mercadoId := some "m1"
           preco := some (-1)
           fonte := "cliente"
           autor := "Ana"
           dataAtu := 70 }] := by
  decide

/-- Contribution fixture with no product reference and no price. -/
def contribSemProduto : Contribuicao :=
  { id := 3
    tipo := "texto"
    produtoId := none
    mercadoId := some "m1"
    preco := none
    autor := "Ana"
    clienteId := some 7
    status := "pendente"
    motivoRecusa := ""
    obs := ""
    criadoEm := 11 }

/-- Database holding the field-less contribution of clienteAna. -/
def dbSemProduto : DB :=
  { clientes := [clienteAna]
    contribuicoes := [contribSemProduto]
    precos := []
    blacklist := [] }

/-- C10 witness: approving the contribution with no product id and no
price succeeds and writes no price entry. -/
theorem aprovarSemCamposNaoPublicaPrecoWitness :
    ((aprovarContribuicaoV8 dbSemProduto 3 60).1
        = Resp.ok "Aprovado e preço publicado!")
  ∧ ((aprovarContribuicaoV8 dbSemProduto 3 60).2.precos = dbSemProduto.precos) :=
  ⟨(aprovarSemCamposNaoPublicaPreco dbSemProduto 3 60 contribSemProduto
      (by decide) (by decide)).1,
    (aprovarSemCamposNaoPublicaPreco dbSemProduto 3 60 contribSemProduto
      (by decide) (by decide)).2.1⟩

/-- C6 counterexample: the claim says a price below or equal to 0 fails
with InvalidInput and nothing is persisted, and that identifiers must be
well-formed references. Submitting price -1 with the arbitrary identifier
strings x and y succeeds with 201 and the contribution is persisted,
because the routes only test JavaScript truthiness of the fields. -/
theorem precoNegativoAceito :
    (postContribuicaoV8 dbPendente "cliente" 7 (some "x") (some "y")
        (some (-1)) "" "" 42 100).1
      = Resp.created "Contribuição enviada! Aguarda aprovação."
  ∧ ((postContribuicaoV8 dbPendente "cliente" 7 (some "x") (some "y")
        (some (-1)) "" "" 42 100).2.contribuicoes.map (fun t => t.preco))
      = [some 5, some (-1)] := by
  decide

/-- C6 (amended): submission is refused with Forbidden when the client is
blocked and with a bad-request error when the product id, market id or
price is missing or zero (JavaScript-falsy); in every refused case no
contribution is persisted. Identifier format is not validated and
negative prices are accepted. -/
theorem submissaoBloqueadoOuCamposFaltando (db : DB) (userId : Nat)
    (produtoId mercadoId : Option String) (preco : Option Int)
    (tipo obs : String) (newId now : Nat) (cl : Cliente)
    (hcl : db.clientes.find? (fun c => c.id == userId) = some cl) :
    (cl.bloqueado = true →
      postContribuicaoV2 db "cliente" userId produtoId mercadoId preco
          tipo obs newId now
        = (.forbidden "Conta bloqueada para contribuições", db))
  ∧ (cl.bloqueado = false →
      (truthyId produtoId && truthyId mercadoId && truthyNum preco) = false →
      postContribuicaoV2 db "cliente" userId produtoId mercadoId preco
          tipo obs newId now
        = (.badRequest "produtoId, mercadoId e preco obrigatórios", db))
  ∧ ((truthyId produtoId && truthyId mercadoId && truthyNum preco) = false →
      postContribuicaoV8 db "cliente" userId produtoId mercadoId preco
          tipo obs newId now
        = (.badRequest "produtoId, mercadoId e preco obrigatórios", db))
  ∧ (cl.bloqueado = true →
      (truthyId produtoId && truthyId mercadoId && truthyNum preco) = true →
      postContribuicaoV8 db "cliente" userId produtoId mercadoId preco
          tipo obs newId now
        = (.forbidden "Conta bloqueada", db)) := by
  refine ⟨?_, ?_, ?_, ?_⟩
  · intro hb
    simp [postContribuicaoV2, hcl, hb]
  · intro hb hm
    simp [postContribuicaoV2, hcl, hb, hm]
  · intro hm
    simp [postContribuicaoV8, hm]
  · intro hb hm
    simp [postContribuicaoV8, hcl, hb, hm]

/-- C6 witness: a submission without a price is refused with the
bad-request error and the database is unchanged. -/
theorem submissaoBloqueadoOuCamposFaltandoWitness :
    postContribuicaoV8 dbPendente "cliente" 7 (some "p1") (some "m1") none
        "" "" 9 9
      = (.badRequest "produtoId, mercadoId e preco obrigatórios", dbPendente) :=
  (submissaoBloqueadoOuCamposFaltando dbPendente 7 (some "p1") (some "m1")
      none "" "" 9 9 clienteAna (by decide)).2.2.1 (by decide)

/-- C7: telNaBlacklist answers true exactly when an active entry with
expiry strictly in the future exists for the normalised identifier; after
terminating a client it answers true at every instant before the expiry
and none from the expiry on, with no run of the sweeper involved. -/
theorem blacklistBloqueiaAteVencimento (db : DB) (cid : Nat)
    (motivo quem : String) (now vence : Nat) (c : Cliente)
    (hc : db.clientes.find? (fun x => x.id == cid) = some c)
    (hcount : db.blacklist.countP
      (fun e => e.telefone == normTel c.telefone) ≤ 1) :
    (∀ (d : DB) (tel : String) (t : Nat),
        (telNaBlacklist d tel t).isSome = true
          ↔ ∃ e ∈ d.blacklist, e.telefone = normTel tel ∧ e.ativo = true
              ∧ t < e.dataVencimento)
  ∧ ((excluirClienteV8 db cid motivo quem now vence).1
        = Resp.ok "Conta excluída. Número bloqueado por 2 meses.")
  ∧ (∀ t, t < vence →
      (telNaBlacklist (excluirClienteV8 db cid motivo quem now vence).2
          c.telefone t).isSome = true)
  ∧ (∀ t, vence ≤ t →
      telNaBlacklist (excluirClienteV8 db cid motivo quem now vence).2
          c.telefone t = none) := by
  refine ⟨?_, ?_, ?_, ?_⟩
  · intro d tel t
    simp [telNaBlacklist, List.find?_isSome, Bool.and_eq_true, beq_iff_eq,
      decide_eq_true_iff, and_assoc]
  · simp [excluirClienteV8, hc]
  · intro t ht
    simp only [excluirClienteV8, hc, telNaBlacklist]
    refine (List.find?_isSome).mpr
      ⟨_, mem_upsert_self (fun e => e.telefone == normTel c.telefone) _
        db.blacklist, ?_⟩
    simp [ht]
  · intro t ht
    simp only [excluirClienteV8, hc, telNaBlacklist]
    rw [List.find?_eq_none]
    intro e he
    rcases mem_upsert_replace _ _ _ hcount e he with rfl | ⟨_, hne⟩
    · simp
      omega
    · simp [hne]

/-- C7 witness: terminating clienteAna at instant 100 with expiry 200
leaves the phone blocked at instant 150 and no longer blocked at 200. -/
theorem blacklistBloqueiaAteVencimentoWitness :
    ((telNaBlacklist (excluirClienteV8 dbPendente 7 "fraude" "admin" 100 200).2
        clienteAna.telefone 150).isSome = true)
  ∧ (telNaBlacklist (excluirClienteV8 dbPendente 7 "fraude" "admin" 100 200).2
        clienteAna.telefone 200 = none) :=
  ⟨(blacklistBloqueiaAteVencimento dbPendente 7 "fraude" "admin" 100 200
      clienteAna (by decide) (by decide)).2.2.1 150 (by decide),
    (blacklistBloqueiaAteVencimento dbPendente 7 "fraude" "admin" 100 200
      clienteAna (by decide) (by decide)).2.2.2 200 (by decide)⟩

/-- C8: registration consults the blacklist after stripping every
non-digit character from the submitted identifier, so while an active
unexpired entry stores the digit form of a phone, any digit-equivalent
spelling of that phone is refused and no client record is created. -/
theorem cadastroRecusaTelefoneEquivalente (db : DB)
    (nome login senha email telefone bairro : String) (nw : Bool)
    (newId now : Nat) (e : BlacklistEntry) (he : e ∈ db.blacklist)
    (hn : e.telefone = normTel telefone) (ha : e.ativo = true)
    (ht : now < e.dataVencimento) :
    ((cadastroClienteV8 db nome login senha email telefone bairro nw
        newId now).2 = db)
  ∧ (((cadastroClienteV8 db nome login senha email telefone bairro nw
        newId now).1).isCreated = false) := by
  have hbl : (telNaBlacklist db (normTel telefone) now).isSome = true := by
    simp only [telNaBlacklist]
    refine (List.find?_isSome).mpr ⟨e, he, ?_⟩
    simp [hn, normTel_idem, ha, ht]
  obtain ⟨be, hbe⟩ := Option.isSome_iff_exists.mp hbl
  constructor
  · simp only [cadastroClienteV8, hbe]
    split
    · rfl
    · split
      · rfl
      · split
        · rfl
        · split
          · rfl
          · split
            · rfl
            · rfl
  · simp only [cadastroClienteV8, hbe]
    split
    · rfl
    · split
      · rfl
      · split
        · rfl
        · split
          · rfl
          · split
            · rfl
            · rfl

/-- Blacklist entry fixture storing a normalised phone. -/
def entradaTeste : BlacklistEntry :=
  { telefone := "75999990000"
    dataInicio := 0
    dataVencimento := 1000
    motivo := "Conta excluída por administrador"
    criadoPor := "admin"
    ativo := true }

/-- Database whose blacklist holds entradaTeste. -/
def dbBlacklist : DB :=
  { clientes := []
    contribuicoes := []
    precos := []
    blacklist := [entradaTeste] }

/-- C8 witness: with 75999990000 blacklisted, registration under the
formatted spelling (75) 99999-0000 is refused and creates nothing. -/
theorem cadastroRecusaTelefoneEquivalenteWitness :
    ((cadastroClienteV8 dbBlacklist "Bia" "bia" "segredo" ""
        "(75) 99999-0000" "Centro" false 9 500).2 = dbBlacklist)
  ∧ (((cadastroClienteV8 dbBlacklist "Bia" "bia" "segredo" ""
        "(75) 99999-0000" "Centro" false 9 500).1).isCreated = false) :=
  cadastroRecusaTelefoneEquivalente dbBlacklist "Bia" "bia" "segredo" ""
    "(75) 99999-0000" "Centro" false 9 500 entradaTeste (by decide)
    (by decide) (by decide) (by decide)

/-- Database with a single approved contribution. -/
def dbAprovada : DB :=
  { clientes := []
    contribuicoes := [{ contribPendente with status := "aprovado", id := 2 }]
    precos := []
    blacklist := [] }

/-- C9 counterexample: the v8 listing route, claimed to return only
pending contributions, returns the approved contribution of dbAprovada. -/
theorem listagemV8IncluiNaoPendentes :
    ((getContribuicoesV8 dbAprovada).1.map (fun t => t.status)) = ["aprovado"] := by
  decide

/-- C9 (amended): the v2.0 listing returns only pending contributions of
the store, newest first, at most 100, leaving the state unchanged; the v8
listing is also read-only and newest-first but returns up to 200
contributions of any status. -/
theorem listagemContribuicoesComportamento (db : DB) :
    ((getContribuicoesV2 db).2 = db)
  ∧ (∀ t ∈ (getContribuicoesV2 db).1,
      t.status = "pendente" ∧ t ∈ db.contribuicoes)
  ∧ ((getContribuicoesV2 db).1.Pairwise (fun a b => b.criadoEm ≤ a.criadoEm))
  ∧ ((getContribuicoesV2 db).1.length ≤ 100)
  ∧ ((getContribuicoesV8 db).2 = db)
  ∧ (∀ t ∈ (getContribuicoesV8 db).1, t ∈ db.contribuicoes)
  ∧ ((getContribuicoesV8 db).1.Pairwise (fun a b => b.criadoEm ≤ a.criadoEm))
  ∧ ((getContribuicoesV8 db).1.length ≤ 200) := by
  simp only [getContribuicoesV2, getContribuicoesV8]
  refine ⟨trivial, ?_, ?_, ?_, trivial, ?_, ?_, ?_⟩
  · intro t htm
    have h1 := List.take_subset _ _ htm
    have h2 := (mem_ordenaDesc _ _).mp h1
    have h3 := List.mem_filter.mp h2
    exact ⟨by simpa using h3.2, h3.1⟩
  · exact List.Pairwise.sublist (List.take_sublist _ _) (pairwise_ordenaDesc _)
  · exact List.length_take_le _ _
  · intro t htm
    exact (mem_ordenaDesc _ _).mp (List.take_subset _ _ htm)
  · exact List.Pairwise.sublist (List.take_sublist _ _) (pairwise_ordenaDesc _)
  · exact List.length_take_le _ _

/-- C9 witness: on dbRecusada the v2.0 listing leaves the state unchanged
and returns at most 100 items. -/
theorem listagemContribuicoesComportamentoWitness :
    ((getContribuicoesV2 dbRecusada).2 = dbRecusada)
  ∧ ((getContribuicoesV2 dbRecusada).1.length ≤ 100) :=
  ⟨(listagemContribuicoesComportamento dbRecusada).1,
    (listagemContribuicoesComportamento dbRecusada).2.2.2.1⟩

end PrecoCerto
